import Mathlib

/-!
Shallow embedding of `src/webhook_server.py` (class `WebhookHandler`,
method `do_POST`, lines 13-62), together with theorems settling the
behavioural claims about it.

The handler is modelled as a pure function from the decoded request data
to the ordered list of side effects it performs: `print` calls (the audit
trace), the `time.sleep(1)` call, and the response-sending calls
(`send_response`, `send_header`, `end_headers`, `wfile.write`).  Log lines
are represented by an inductive type carrying the Python value that the
corresponding f-string interpolates, so ordering and content of the audit
trace are both visible.  Python exceptions inside the `try` block are
modelled by the points where the source can raise (`.get` on a non-dict,
`json.loads` failure, UTF-8 decode failure), each leading to the
`except` branch of lines 59-62.
-/

namespace Webhook

/-- JSON values as returned by Python's `json.loads`: `null`, booleans,
numbers (modelled as rationals), strings, arrays and objects.  An object
keeps its key/value pairs in source order. -/
inductive Json where
  | null : Json
  | bool (b : Bool) : Json
  | num (q : ℚ) : Json
  | str (s : String) : Json
  | arr (elems : List Json) : Json
  | obj (entries : List (String × Json)) : Json

/-- Python `dict` lookup on the entry list of a JSON object.  When the JSON
text repeats a key, `json.loads` keeps the last occurrence, hence the fold
that retains the last matching entry. -/
def lookupLast (kvs : List (String × Json)) (k : String) : Option Json :=
  kvs.foldl (fun acc p => if p.1 = k then some p.2 else acc) none

/-- Python `d.get(k, default)` on a dict: the stored value when the key is
present, the default otherwise. -/
def getD (kvs : List (String × Json)) (k : String) (d : Json) : Json :=
  (lookupLast kvs k).getD d

/-- Whether the key is present in the object (Python `k in d`). -/
def hasKey (kvs : List (String × Json)) (k : String) : Bool :=
  kvs.any (fun p => p.1 = k)

/-- Python truthiness of a `json.loads` value: `None`, `False`, zero, the
empty string, the empty list and the empty dict are falsy, everything
else is truthy (used by `if fleet_metrics:` on line 42). -/
def Json.truthy : Json → Bool
  | .null => false
  | .bool b => b
  | .num q => decide (q ≠ 0)
  | .str s => decide (s ≠ "")
  | .arr elems => !elems.isEmpty
  | .obj entries => !entries.isEmpty

/-- Whether the value is a JSON object (a Python dict, which is what `.get`
requires). -/
def Json.isObj : Json → Bool
  | .null => false
  | .bool _ => false
  | .num _ => false
  | .str _ => false
  | .arr _ => false
  | .obj _ => true

/-- Python `v == s` for a string literal `s`: true exactly when `v` is that
string (comparison of a non-string JSON value with a `str` is `False`). -/
def isStr (v : Json) (s : String) : Bool :=
  match v with
  | .str t => t = s
  | _ => false

/-- One audit-log line of `do_POST`, tagged with the Python value that the
f-string interpolates (lines 22-48 and 60 of the source). -/
inductive LogEntry where
  | banner : LogEntry
  | reasonLine (v : Json) : LogEntry
  | timestampLine (v : Json) : LogEntry
  | mlHeader : LogEntry
  | predictedCpuLine (v : Json) : LogEntry
  | horizonLine (v : Json) : LogEntry
  | confidenceLine (v : Json) : LogEntry
  | selfHealingHeader : LogEntry
  | failedNodeIdLine (v : Json) : LogEntry
  | failedNodeIpLine (v : Json) : LogEntry
  | provisioningLine : LogEntry
  | fleetHeader : LogEntry
  | activeNodesLine (v : Json) : LogEntry
  | avgCpuLine (v : Json) : LogEntry
  | totalConnectionsLine (v : Json) : LogEntry
  | successLine : LogEntry
  | errorLine : LogEntry

/-- One observable side effect of `do_POST`, in the order the source
performs them. -/
inductive Eff where
  | print (e : LogEntry) : Eff
  | sleep (seconds : Nat) : Eff
  | sendStatus (code : Nat) : Eff
  | sendHeader (name value : String) : Eff
  | endHeaders : Eff
  | writeBody (s : String) : Eff

/-- Lines 28-31: the ML-prediction block, given the three values extracted
from `prediction_info` by `.get(..., 'N/A')`. -/
def mlBlock (cpu horizon confidence : Json) : List Eff :=
  [Eff.print LogEntry.mlHeader,
   Eff.print (LogEntry.predictedCpuLine cpu),
   Eff.print (LogEntry.horizonLine horizon),
   Eff.print (LogEntry.confidenceLine confidence)]

/-- Lines 36-39: the self-healing block, given the two values extracted
from the payload by `.get(..., 'unknown')`. -/
def nodeBlock (nodeId nodeIp : Json) : List Eff :=
  [Eff.print LogEntry.selfHealingHeader,
   Eff.print (LogEntry.failedNodeIdLine nodeId),
   Eff.print (LogEntry.failedNodeIpLine nodeIp),
   Eff.print LogEntry.provisioningLine]

/-- Lines 43-46: the fleet-status block, given the three values extracted
from `fleet_metrics` by `.get(..., 'N/A')`. -/
def fleetBlock (active avgCpu conns : Json) : List Eff :=
  [Eff.print LogEntry.fleetHeader,
   Eff.print (LogEntry.activeNodesLine active),
   Eff.print (LogEntry.avgCpuLine avgCpu),
   Eff.print (LogEntry.totalConnectionsLine conns)]

/-- The serialized success body of line 57: `json.dumps` of the dict built
on line 56 (insertion order preserved, default separators). -/
def successBody : String :=
  "\x7b\"status\": \"success\", \"message\": \"Provisioning initiated\"\x7d"

/-- Lines 48-57: success print, provisioning delay, and the 200 response
with content-type header and JSON body. -/
def successTail : List Eff :=
  [Eff.print LogEntry.successLine,
   Eff.sleep 1,
   Eff.sendStatus 200,
   Eff.sendHeader "Content-type" "application/json",
   Eff.endHeaders,
   Eff.writeBody successBody]

/-- Lines 59-62: the `except` branch — error print, then a 400 response
with no headers beyond the status line and no body. -/
def errorTail : List Eff :=
  [Eff.print LogEntry.errorLine,
   Eff.sendStatus 400,
   Eff.endHeaders]

/-- Line 19: `payload.get('reason', 'unknown')`. -/
def eventReason (kvs : List (String × Json)) : Json :=
  getD kvs "reason" (Json.str "unknown")

/-- Line 20: `payload.get('timestamp', 'unknown')`. -/
def eventTimestamp (kvs : List (String × Json)) : Json :=
  getD kvs "timestamp" (Json.str "unknown")

/-- Lines 22-24: the banner and the reason/timestamp lines printed for
every decoded payload. -/
def preSteps (kvs : List (String × Json)) : List Eff :=
  [Eff.print LogEntry.banner,
   Eff.print (LogEntry.reasonLine (eventReason kvs)),
   Eff.print (LogEntry.timestampLine (eventTimestamp kvs))]

/-- Lines 26-39: the `reason` branch.  Returns the effects it prints and
whether it completed without raising.  In the predicted-load branch the
ML header of line 28 is printed first; if `prediction_info` is not a dict,
the `.get` inside the f-string of line 29 then raises `AttributeError`,
so only the header appears and the flag is `false`. -/
def variantSteps (kvs : List (String × Json)) (reason : Json) : List Eff × Bool :=
  if isStr reason "PREDICTED_HIGH_FLEET_CPU_LOAD" then
    match getD kvs "prediction_info" (Json.obj []) with
    | Json.obj p =>
        (mlBlock (getD p "predicted_cpu_usage" (Json.str "N/A"))
                 (getD p "prediction_horizon_minutes" (Json.str "N/A"))
                 (getD p "confidence" (Json.str "N/A")), true)
    | _ => ([Eff.print LogEntry.mlHeader], false)
  else if isStr reason "UNEXPECTED_NODE_FAILURE" then
    (nodeBlock (getD kvs "failed_node_id" (Json.str "unknown"))
               (getD kvs "failed_node_ip" (Json.str "unknown")), true)
  else
    ([], true)

/-- Lines 41-46: the fleet-metrics step.  `payload.get('fleet_metrics', {})`
never raises; the block runs only when the result is truthy (line 42).
A truthy non-dict prints the header of line 43 and then raises at the
`.get` of line 44, so only the header appears and the flag is `false`. -/
def fleetSteps (kvs : List (String × Json)) : List Eff × Bool :=
  let fm := getD kvs "fleet_metrics" (Json.obj [])
  if fm.truthy then
    match fm with
    | Json.obj f =>
        (fleetBlock (getD f "active_nodes" (Json.str "N/A"))
                    (getD f "avg_cpu_usage" (Json.str "N/A"))
                    (getD f "total_connections" (Json.str "N/A")), true)
    | _ => ([Eff.print LogEntry.fleetHeader], false)
  else
    ([], true)

/-- Lines 19-57 for a payload that decoded to a dict: the logging steps in
source order, with any raise inside the `try` block routed to the
`except` branch (lines 59-62). -/
def handleObj (kvs : List (String × Json)) : List Eff :=
  match variantSteps kvs (eventReason kvs) with
  | (vs, false) => preSteps kvs ++ vs ++ errorTail
  | (vs, true) =>
    match fleetSteps kvs with
    | (fs, false) => preSteps kvs ++ vs ++ fs ++ errorTail
    | (fs, true) => preSteps kvs ++ vs ++ fs ++ successTail

/-- The request body, classified by the outcome of line 18
(`json.loads(post_data.decode('utf-8'))`): bytes that are not valid
UTF-8, text that is not well-formed JSON, or a parsed JSON value. -/
inductive Body where
  | invalidUtf8 : Body
  | invalidJson (text : String) : Body
  | value (j : Json) : Body

/-- Decoding a body into the payload dict the rest of the handler uses:
line 18 raises on invalid UTF-8 or malformed JSON, and line 19
(`payload.get`) raises `AttributeError` when the parsed top-level value is
not a dict.  All three raises land in the `except` branch. -/
def decodePayload : Body → Except Unit (List (String × Json))
  | .invalidUtf8 => .error ()
  | .invalidJson _ => .error ()
  | .value (Json.obj kvs) => .ok kvs
  | .value _ => .error ()

/-- The whole `try`/`except` of lines 17-62 as an effect trace. -/
def processBody (body : Body) : List Eff :=
  match decodePayload body with
  | .error _ => errorTail
  | .ok kvs => handleObj kvs

/-- The `Content-Length` header as seen on line 14: absent
(`self.headers['Content-Length']` yields `None`, so `int(None)` raises
`TypeError`), present but not an integer literal (`int(s)` raises
`ValueError`), or a valid length. -/
inductive ContentLength where
  | absent : ContentLength
  | malformed (s : String) : ContentLength
  | valid (n : Nat) : ContentLength

/-- Outcome of a single `do_POST` call: either the handler ran to the end
of one of its two response paths, or an exception escaped the method
(nothing was sent to the client by `do_POST`). -/
inductive Outcome where
  | response (trace : List Eff) : Outcome
  | uncaughtFault : Outcome

/-- Lines 13-62 of the source: `do_POST`.  Lines 14-15 run before the
`try` block, so a missing or malformed `Content-Length` raises an
exception that is not caught by the handler. -/
def do_POST : ContentLength → Body → Outcome
  | .valid _, body => .response (processBody body)
  | .absent, _ => .uncaughtFault
  | .malformed _, _ => .uncaughtFault

/-- The status code of the first `send_response` call in a trace. -/
def statusOf : List Eff → Option Nat
  | [] => none
  | Eff.sendStatus c :: _ => some c
  | _ :: rest => statusOf rest

/-- All strings written to `wfile` in a trace, in order (the response
body). -/
def bodyChunks : List Eff → List String
  | [] => []
  | Eff.writeBody s :: rest => s :: bodyChunks rest
  | _ :: rest => bodyChunks rest

/-- Whether an effect is a `print` call. -/
def isPrint : Eff → Bool
  | .print _ => true
  | _ => false

/-- Whether an effect is the `time.sleep` call. -/
def isSleep : Eff → Bool
  | .sleep _ => true
  | _ => false

/-- Lifts a predicate on log lines to effects (false on non-print
effects). -/
def effLog (p : LogEntry → Bool) : Eff → Bool
  | .print e => p e
  | _ => false

/-- Log lines printed only by the predicted-load branch (lines 28-31). -/
def isPredictionEntry : LogEntry → Bool
  | .mlHeader => true
  | .predictedCpuLine _ => true
  | .horizonLine _ => true
  | .confidenceLine _ => true
  | _ => false

/-- Log lines printed only by the node-failure branch (lines 36-39). -/
def isNodeFailureEntry : LogEntry → Bool
  | .selfHealingHeader => true
  | .failedNodeIdLine _ => true
  | .failedNodeIpLine _ => true
  | .provisioningLine => true
  | _ => false

/-- Log lines printed only by the fleet-metrics block (lines 43-46). -/
def isFleetEntry : LogEntry → Bool
  | .fleetHeader => true
  | .activeNodesLine _ => true
  | .avgCpuLine _ => true
  | .totalConnectionsLine _ => true
  | _ => false

/-- Whether the trace logs any line of the predicted-load block. -/
def hasPredictionEntry (tr : List Eff) : Bool := tr.any (effLog isPredictionEntry)

/-- Whether the trace logs any line of the node-failure block. -/
def hasNodeFailureEntry (tr : List Eff) : Bool := tr.any (effLog isNodeFailureEntry)

/-- Whether the trace logs any line of the fleet-metrics block. -/
def hasFleetEntry (tr : List Eff) : Bool := tr.any (effLog isFleetEntry)

/-- The error line of the `except` branch (line 60), the marker of an
internal fault. -/
def isErrorEntry : LogEntry → Bool
  | .errorLine => true
  | _ => false

/-- Whether the trace logs the error line of the `except` branch
(line 60), the marker of an internal fault. -/
def hasErrorEntry (tr : List Eff) : Bool := tr.any (effLog isErrorEntry)

/-- Whether the trace contains a `sleep` effect. -/
def hasSleep (tr : List Eff) : Bool := tr.any isSleep

/-- Lines 53-57: the effects that send the 200 response, performed after
the `time.sleep(1)` of line 51. -/
def respSteps : List Eff :=
  [Eff.sendStatus 200,
   Eff.sendHeader "Content-type" "application/json",
   Eff.endHeaders,
   Eff.writeBody successBody]

/-- A JSON object payload whose `prediction_info` field is a number, not a
mapping. -/
def nonMappingInfoPayload : List (String × Json) :=
  [("reason", Json.str "PREDICTED_HIGH_FLEET_CPU_LOAD"),
   ("prediction_info", Json.num 5)]

/-- A JSON object payload whose `fleet_metrics` field is present but is
the empty mapping. -/
def emptyFleetPayload : List (String × Json) :=
  [("fleet_metrics", Json.obj [])]

/-- The Scenario B prediction sub-record: `predicted_cpu_usage` and
`confidence` present, `prediction_horizon_minutes` absent. -/
def scenarioBInfo : List (String × Json) :=
  [("predicted_cpu_usage", Json.num 92.5), ("confidence", Json.num 0.87)]

/-- The Scenario B payload: a predicted-load event with a partial
prediction sub-record. -/
def scenarioBPayload : List (String × Json) :=
  [("reason", Json.str "PREDICTED_HIGH_FLEET_CPU_LOAD"),
   ("prediction_info", Json.obj scenarioBInfo)]

/-! ### Helper lemmas characterising the branch structure of the handler -/

@[simp] theorem processBody_invalidUtf8 :
    processBody Body.invalidUtf8 = errorTail := rfl

@[simp] theorem processBody_invalidJson (s : String) :
    processBody (Body.invalidJson s) = errorTail := rfl

@[simp] theorem processBody_null :
    processBody (Body.value Json.null) = errorTail := rfl

@[simp] theorem processBody_bool (b : Bool) :
    processBody (Body.value (Json.bool b)) = errorTail := rfl

@[simp] theorem processBody_num (q : ℚ) :
    processBody (Body.value (Json.num q)) = errorTail := rfl

@[simp] theorem processBody_str (s : String) :
    processBody (Body.value (Json.str s)) = errorTail := rfl

@[simp] theorem processBody_arr (es : List Json) :
    processBody (Body.value (Json.arr es)) = errorTail := rfl

@[simp] theorem statusOf_nil : statusOf [] = none := rfl

@[simp] theorem statusOf_print (e : LogEntry) (tr : List Eff) :
    statusOf (Eff.print e :: tr) = statusOf tr := rfl

@[simp] theorem statusOf_sleep (n : Nat) (tr : List Eff) :
    statusOf (Eff.sleep n :: tr) = statusOf tr := rfl

@[simp] theorem statusOf_sendStatus (c : Nat) (tr : List Eff) :
    statusOf (Eff.sendStatus c :: tr) = some c := rfl

@[simp] theorem statusOf_sendHeader (a b : String) (tr : List Eff) :
    statusOf (Eff.sendHeader a b :: tr) = statusOf tr := rfl

@[simp] theorem statusOf_endHeaders (tr : List Eff) :
    statusOf (Eff.endHeaders :: tr) = statusOf tr := rfl

@[simp] theorem statusOf_writeBody (s : String) (tr : List Eff) :
    statusOf (Eff.writeBody s :: tr) = statusOf tr := rfl

theorem processBody_obj (kvs : List (String × Json)) :
    processBody (Body.value (Json.obj kvs)) = handleObj kvs := rfl

theorem variantSteps_pred_obj (kvs : List (String × Json)) (r : Json)
    (p : List (String × Json))
    (h : isStr r "PREDICTED_HIGH_FLEET_CPU_LOAD" = true)
    (hp : getD kvs "prediction_info" (Json.obj []) = Json.obj p) :
    variantSteps kvs r =
      (mlBlock (getD p "predicted_cpu_usage" (Json.str "N/A"))
               (getD p "prediction_horizon_minutes" (Json.str "N/A"))
               (getD p "confidence" (Json.str "N/A")), true) := by
  unfold variantSteps
  rw [if_pos h, hp]

theorem variantSteps_pred_fault (kvs : List (String × Json)) (r : Json)
    (h : isStr r "PREDICTED_HIGH_FLEET_CPU_LOAD" = true)
    (hp : (getD kvs "prediction_info" (Json.obj [])).isObj = false) :
    variantSteps kvs r = ([Eff.print LogEntry.mlHeader], false) := by
  unfold variantSteps
  rw [if_pos h]
  cases hg : getD kvs "prediction_info" (Json.obj []) with
  | obj p => rw [hg] at hp; simp [Json.isObj] at hp
  | null => rfl
  | bool b => rfl
  | num q => rfl
  | str s => rfl
  | arr es => rfl

theorem variantSteps_node (kvs : List (String × Json)) (r : Json)
    (h1 : isStr r "PREDICTED_HIGH_FLEET_CPU_LOAD" = false)
    (h2 : isStr r "UNEXPECTED_NODE_FAILURE" = true) :
    variantSteps kvs r =
      (nodeBlock (getD kvs "failed_node_id" (Json.str "unknown"))
                 (getD kvs "failed_node_ip" (Json.str "unknown")), true) := by
  unfold variantSteps
  rw [if_neg (by simp [h1]), if_pos h2]

theorem variantSteps_other (kvs : List (String × Json)) (r : Json)
    (h1 : isStr r "PREDICTED_HIGH_FLEET_CPU_LOAD" = false)
    (h2 : isStr r "UNEXPECTED_NODE_FAILURE" = false) :
    variantSteps kvs r = ([], true) := by
  unfold variantSteps
  rw [if_neg (by simp [h1]), if_neg (by simp [h2])]

theorem variantSteps_spec (kvs : List (String × Json)) (r : Json) :
    (∃ vb, variantSteps kvs r = (vb, true) ∧
      (vb = [] ∨ (∃ a b c, vb = mlBlock a b c) ∨ (∃ a b, vb = nodeBlock a b))) ∨
    variantSteps kvs r = ([Eff.print LogEntry.mlHeader], false) := by
  by_cases h1 : isStr r "PREDICTED_HIGH_FLEET_CPU_LOAD" = true
  · cases hg : getD kvs "prediction_info" (Json.obj []) with
    | obj p =>
      exact Or.inl ⟨_, variantSteps_pred_obj kvs r p h1 hg,
        Or.inr (Or.inl ⟨_, _, _, rfl⟩)⟩
    | null => exact Or.inr (variantSteps_pred_fault kvs r h1 (by rw [hg]; rfl))
    | bool b => exact Or.inr (variantSteps_pred_fault kvs r h1 (by rw [hg]; rfl))
    | num q => exact Or.inr (variantSteps_pred_fault kvs r h1 (by rw [hg]; rfl))
    | str s => exact Or.inr (variantSteps_pred_fault kvs r h1 (by rw [hg]; rfl))
    | arr es => exact Or.inr (variantSteps_pred_fault kvs r h1 (by rw [hg]; rfl))
  · have h1f : isStr r "PREDICTED_HIGH_FLEET_CPU_LOAD" = false := Bool.eq_false_iff.mpr h1
    by_cases h2 : isStr r "UNEXPECTED_NODE_FAILURE" = true
    · exact Or.inl ⟨_, variantSteps_node kvs r h1f h2, Or.inr (Or.inr ⟨_, _, rfl⟩)⟩
    · have h2f : isStr r "UNEXPECTED_NODE_FAILURE" = false := Bool.eq_false_iff.mpr h2
      exact Or.inl ⟨_, variantSteps_other kvs r h1f h2f, Or.inl rfl⟩

theorem fleetSteps_falsy (kvs : List (String × Json))
    (h : (getD kvs "fleet_metrics" (Json.obj [])).truthy = false) :
    fleetSteps kvs = ([], true) := by
  simp only [fleetSteps, h]
  rfl

theorem fleetSteps_obj (kvs : List (String × Json)) (f : List (String × Json))
    (hf : getD kvs "fleet_metrics" (Json.obj []) = Json.obj f)
    (ht : (Json.obj f).truthy = true) :
    fleetSteps kvs =
      (fleetBlock (getD f "active_nodes" (Json.str "N/A"))
                  (getD f "avg_cpu_usage" (Json.str "N/A"))
                  (getD f "total_connections" (Json.str "N/A")), true) := by
  simp only [fleetSteps, hf, ht]
  rfl

theorem fleetSteps_spec (kvs : List (String × Json)) :
    fleetSteps kvs = ([], true) ∨
    (∃ a b c, fleetSteps kvs = (fleetBlock a b c, true)) ∨
    fleetSteps kvs = ([Eff.print LogEntry.fleetHeader], false) := by
  cases hg : getD kvs "fleet_metrics" (Json.obj []) with
  | null => exact Or.inl (fleetSteps_falsy kvs (by rw [hg]; rfl))
  | bool b =>
    cases b with
    | false => exact Or.inl (fleetSteps_falsy kvs (by rw [hg]; rfl))
    | true =>
      refine Or.inr (Or.inr ?_)
      simp only [fleetSteps, hg]
      rfl
  | num q =>
    cases ht : (Json.num q).truthy with
    | false => exact Or.inl (fleetSteps_falsy kvs (by rw [hg]; exact ht))
    | true =>
      refine Or.inr (Or.inr ?_)
      simp only [fleetSteps, hg, ht]
      rfl
  | str s =>
    cases ht : (Json.str s).truthy with
    | false => exact Or.inl (fleetSteps_falsy kvs (by rw [hg]; exact ht))
    | true =>
      refine Or.inr (Or.inr ?_)
      simp only [fleetSteps, hg, ht]
      rfl
  | arr es =>
    cases ht : (Json.arr es).truthy with
    | false => exact Or.inl (fleetSteps_falsy kvs (by rw [hg]; exact ht))
    | true =>
      refine Or.inr (Or.inr ?_)
      simp only [fleetSteps, hg, ht]
      rfl
  | obj f =>
    cases ht : (Json.obj f).truthy with
    | false => exact Or.inl (fleetSteps_falsy kvs (by rw [hg]; exact ht))
    | true => exact Or.inr (Or.inl ⟨_, _, _, fleetSteps_obj kvs f hg ht⟩)

theorem handleObj_eq_success (kvs : List (String × Json)) (vb fb : List Eff)
    (hv : variantSteps kvs (eventReason kvs) = (vb, true))
    (hf : fleetSteps kvs = (fb, true)) :
    handleObj kvs = preSteps kvs ++ vb ++ fb ++ successTail := by
  unfold handleObj
  rw [hv, hf]

theorem handleObj_eq_variant_fault (kvs : List (String × Json)) (vb : List Eff)
    (hv : variantSteps kvs (eventReason kvs) = (vb, false)) :
    handleObj kvs = preSteps kvs ++ vb ++ errorTail := by
  unfold handleObj
  rw [hv]

theorem handleObj_eq_fleet_fault (kvs : List (String × Json)) (vb fb : List Eff)
    (hv : variantSteps kvs (eventReason kvs) = (vb, true))
    (hf : fleetSteps kvs = (fb, false)) :
    handleObj kvs = preSteps kvs ++ vb ++ fb ++ errorTail := by
  unfold handleObj
  rw [hv, hf]

/-- Every trace `handleObj` can produce, by its block structure. -/
theorem handleObj_shapes (kvs : List (String × Json)) :
    (∃ vb fb, handleObj kvs = preSteps kvs ++ vb ++ fb ++ successTail ∧
      (vb = [] ∨ (∃ a b c, vb = mlBlock a b c) ∨ (∃ a b, vb = nodeBlock a b)) ∧
      (fb = [] ∨ ∃ a b c, fb = fleetBlock a b c)) ∨
    handleObj kvs = preSteps kvs ++ [Eff.print LogEntry.mlHeader] ++ errorTail ∨
    (∃ vb, handleObj kvs =
        preSteps kvs ++ vb ++ [Eff.print LogEntry.fleetHeader] ++ errorTail ∧
      (vb = [] ∨ (∃ a b c, vb = mlBlock a b c) ∨ (∃ a b, vb = nodeBlock a b))) := by
  rcases variantSteps_spec kvs (eventReason kvs) with ⟨vb, hv, hvs⟩ | hv
  · rcases fleetSteps_spec kvs with hf | ⟨a, b, c, hf⟩ | hf
    · exact Or.inl ⟨vb, [], handleObj_eq_success kvs vb [] hv hf, hvs, Or.inl rfl⟩
    · exact Or.inl ⟨vb, fleetBlock a b c, handleObj_eq_success kvs vb _ hv hf, hvs,
        Or.inr ⟨a, b, c, rfl⟩⟩
    · exact Or.inr (Or.inr ⟨vb, handleObj_eq_fleet_fault kvs vb _ hv hf, hvs⟩)
  · exact Or.inr (Or.inl (handleObj_eq_variant_fault kvs _ hv))

/-- When `prediction_info` is a dict whenever the predicted-load branch is
taken, the `reason` branch completes without raising. -/
theorem variantSteps_ok (kvs : List (String × Json)) (r : Json)
    (hp : isStr r "PREDICTED_HIGH_FLEET_CPU_LOAD" = true →
          (getD kvs "prediction_info" (Json.obj [])).isObj = true) :
    ∃ vb, variantSteps kvs r = (vb, true) ∧
      (vb = [] ∨ (∃ a b c, vb = mlBlock a b c) ∨ (∃ a b, vb = nodeBlock a b)) := by
  by_cases h1 : isStr r "PREDICTED_HIGH_FLEET_CPU_LOAD" = true
  · cases hg : getD kvs "prediction_info" (Json.obj []) with
    | obj p =>
      exact ⟨_, variantSteps_pred_obj kvs r p h1 hg, Or.inr (Or.inl ⟨_, _, _, rfl⟩)⟩
    | null => have h := hp h1; rw [hg] at h; exact Bool.noConfusion h
    | bool b => have h := hp h1; rw [hg] at h; exact Bool.noConfusion h
    | num q => have h := hp h1; rw [hg] at h; exact Bool.noConfusion h
    | str s => have h := hp h1; rw [hg] at h; exact Bool.noConfusion h
    | arr es => have h := hp h1; rw [hg] at h; exact Bool.noConfusion h
  · have h1f : isStr r "PREDICTED_HIGH_FLEET_CPU_LOAD" = false := Bool.eq_false_iff.mpr h1
    by_cases h2 : isStr r "UNEXPECTED_NODE_FAILURE" = true
    · exact ⟨_, variantSteps_node kvs r h1f h2, Or.inr (Or.inr ⟨_, _, rfl⟩)⟩
    · exact ⟨_, variantSteps_other kvs r h1f (Bool.eq_false_iff.mpr h2), Or.inl rfl⟩

/-- When `fleet_metrics` is falsy or a dict, the fleet-metrics step
completes without raising. -/
theorem fleetSteps_ok (kvs : List (String × Json))
    (hf : (getD kvs "fleet_metrics" (Json.obj [])).truthy = true →
          (getD kvs "fleet_metrics" (Json.obj [])).isObj = true) :
    ∃ fb, fleetSteps kvs = (fb, true) ∧
      (fb = [] ∨ ∃ a b c, fb = fleetBlock a b c) := by
  cases hg : getD kvs "fleet_metrics" (Json.obj []) with
  | obj f =>
    cases ht : (Json.obj f).truthy with
    | false => exact ⟨_, fleetSteps_falsy kvs (by rw [hg]; exact ht), Or.inl rfl⟩
    | true => exact ⟨_, fleetSteps_obj kvs f hg ht, Or.inr ⟨_, _, _, rfl⟩⟩
  | null => exact ⟨_, fleetSteps_falsy kvs (by rw [hg]; rfl), Or.inl rfl⟩
  | bool b =>
    cases b with
    | false => exact ⟨_, fleetSteps_falsy kvs (by rw [hg]; rfl), Or.inl rfl⟩
    | true =>
      have h := hf (by rw [hg]; rfl)
      rw [hg] at h
      exact Bool.noConfusion h
  | num q =>
    cases ht : (Json.num q).truthy with
    | false => exact ⟨_, fleetSteps_falsy kvs (by rw [hg]; exact ht), Or.inl rfl⟩
    | true =>
      have h := hf (by rw [hg]; exact ht)
      rw [hg] at h
      exact Bool.noConfusion h
  | str s =>
    cases ht : (Json.str s).truthy with
    | false => exact ⟨_, fleetSteps_falsy kvs (by rw [hg]; exact ht), Or.inl rfl⟩
    | true =>
      have h := hf (by rw [hg]; exact ht)
      rw [hg] at h
      exact Bool.noConfusion h
  | arr es =>
    cases ht : (Json.arr es).truthy with
    | false => exact ⟨_, fleetSteps_falsy kvs (by rw [hg]; exact ht), Or.inl rfl⟩
    | true =>
      have h := hf (by rw [hg]; exact ht)
      rw [hg] at h
      exact Bool.noConfusion h

/-- Folding the dict-lookup step over entries without the key returns the
accumulator unchanged. -/
theorem foldl_lookup_of_no_key (kvs : List (String × Json)) (k : String)
    (h : hasKey kvs k = false) (acc : Option Json) :
    kvs.foldl (fun acc p => if p.1 = k then some p.2 else acc) acc = acc := by
  induction kvs generalizing acc with
  | nil => rfl
  | cons q rest ih =>
    simp only [hasKey, List.any_cons, Bool.or_eq_false_iff] at h
    rw [List.foldl_cons, if_neg (by simpa using h.1)]
    exact ih (by simpa [hasKey] using h.2) acc

/-- Looking up an absent key yields `none`. -/
theorem lookupLast_of_no_key (kvs : List (String × Json)) (k : String)
    (h : hasKey kvs k = false) : lookupLast kvs k = none :=
  foldl_lookup_of_no_key kvs k h none

/-! ### Claims -/

/-- C2: for any request body that is not valid UTF-8, or not parseable as
JSON, or whose top-level JSON value is not an object, decoding fails
(lines 17-19 raise into the `except` branch) and the request yields an
HTTP 400 response with an empty body (lines 59-62). -/
theorem decode_failure_yields_400 (body : Body)
    (h : decodePayload body = Except.error ()) :
    statusOf (processBody body) = some 400 ∧
    bodyChunks (processBody body) = [] := by
  unfold processBody
  rw [h]
  exact ⟨rfl, rfl⟩

/-- Witness for C2 at the concrete body `not json` (text that is not
well-formed JSON). -/
theorem decode_failure_yields_400_witness :
    decodePayload (Body.invalidJson "not json") = Except.error () ∧
    (statusOf (processBody (Body.invalidJson "not json")) = some 400 ∧
     bodyChunks (processBody (Body.invalidJson "not json")) = []) :=
  ⟨rfl, decode_failure_yields_400 (Body.invalidJson "not json") rfl⟩

/-- C5: a well-formed JSON object body always decodes, and omitting
`reason` and/or `timestamp` makes the corresponding event field default
to `"unknown"` (lines 19-20). -/
theorem decode_defaulting (kvs : List (String × Json)) :
    decodePayload (Body.value (Json.obj kvs)) = Except.ok kvs ∧
    (hasKey kvs "reason" = false → eventReason kvs = Json.str "unknown") ∧
    (hasKey kvs "timestamp" = false → eventTimestamp kvs = Json.str "unknown") := by
  refine ⟨rfl, fun h => ?_, fun h => ?_⟩
  · unfold eventReason getD
    rw [lookupLast_of_no_key kvs "reason" h]
    rfl
  · unfold eventTimestamp getD
    rw [lookupLast_of_no_key kvs "timestamp" h]
    rfl

/-- Witness for C5 at the concrete empty object payload. -/
theorem decode_defaulting_witness :
    eventReason [] = Json.str "unknown" ∧
    eventTimestamp [] = Json.str "unknown" :=
  ⟨(decode_defaulting []).2.1 rfl, (decode_defaulting []).2.2 rfl⟩

/-- C4 counterexample: a request whose `Content-Length` header is absent
makes line 14 (`int(self.headers['Content-Length'])`) raise outside the
`try` block, so the exception escapes `do_POST` and no 400 response is
produced — refuting the claim that every fault is converted to 400. -/
theorem content_length_fault_uncaught :
    do_POST ContentLength.absent (Body.value (Json.obj [])) =
      Outcome.uncaughtFault ∧
    do_POST (ContentLength.malformed "abc") (Body.value (Json.obj [])) =
      Outcome.uncaughtFault :=
  ⟨rfl, rfl⟩

/-- C4 (amended): every fault raised inside the `try` block (from payload
decoding onward) is caught and converted to the fixed HTTP 400 response
with empty body, so for any request whose `Content-Length` parses the
handler always sends a response (200, or 400 with empty body); faults
raised on lines 14-15, before the `try` block, escape the handler. -/
theorem try_block_faults_caught (n : Nat) (body : Body) :
    do_POST (ContentLength.valid n) body = Outcome.response (processBody body) ∧
    (statusOf (processBody body) = some 200 ∨
      (statusOf (processBody body) = some 400 ∧
       bodyChunks (processBody body) = [])) := by
  refine ⟨rfl, ?_⟩
  cases body with
  | invalidUtf8 => exact Or.inr ⟨rfl, rfl⟩
  | invalidJson s => exact Or.inr ⟨rfl, rfl⟩
  | value j =>
    cases j with
    | null => exact Or.inr ⟨rfl, rfl⟩
    | bool b => exact Or.inr ⟨rfl, rfl⟩
    | num q => exact Or.inr ⟨rfl, rfl⟩
    | str s => exact Or.inr ⟨rfl, rfl⟩
    | arr es => exact Or.inr ⟨rfl, rfl⟩
    | obj kvs =>
      rcases handleObj_shapes kvs with ⟨vb, fb, he, hvs, hfs⟩ | he | ⟨vb, he, hvs⟩
      · rw [processBody_obj, he]
        rcases hvs with rfl | ⟨a, b, c, rfl⟩ | ⟨a, b, rfl⟩ <;>
          rcases hfs with rfl | ⟨x, y, z, rfl⟩ <;> exact Or.inl rfl
      · rw [processBody_obj, he]
        exact Or.inr ⟨rfl, rfl⟩
      · rw [processBody_obj, he]
        rcases hvs with rfl | ⟨a, b, c, rfl⟩ | ⟨a, b, rfl⟩ <;> exact Or.inr ⟨rfl, rfl⟩

/-- Witness for C4 (amended) at a concrete unparseable body with a valid
`Content-Length`: a response is always produced, here 400 with empty
body. -/
theorem try_block_faults_caught_witness :
    do_POST (ContentLength.valid 8) (Body.invalidJson "not json") =
      Outcome.response (processBody (Body.invalidJson "not json")) ∧
    (statusOf (processBody (Body.invalidJson "not json")) = some 200 ∨
      (statusOf (processBody (Body.invalidJson "not json")) = some 400 ∧
       bodyChunks (processBody (Body.invalidJson "not json")) = [])) :=
  try_block_faults_caught 8 (Body.invalidJson "not json")

/-- C10: two object payloads that agree on the six recognized top-level
fields (`reason`, `timestamp`, `prediction_info`, `failed_node_id`,
`failed_node_ip`, `fleet_metrics`) produce identical effect traces —
identical status, response body and audit log — since the handler reads
the payload only through `.get` on those keys. -/
theorem unrecognized_fields_no_influence (kvs₁ kvs₂ : List (String × Json))
    (h1 : lookupLast kvs₁ "reason" = lookupLast kvs₂ "reason")
    (h2 : lookupLast kvs₁ "timestamp" = lookupLast kvs₂ "timestamp")
    (h3 : lookupLast kvs₁ "prediction_info" = lookupLast kvs₂ "prediction_info")
    (h4 : lookupLast kvs₁ "failed_node_id" = lookupLast kvs₂ "failed_node_id")
    (h5 : lookupLast kvs₁ "failed_node_ip" = lookupLast kvs₂ "failed_node_ip")
    (h6 : lookupLast kvs₁ "fleet_metrics" = lookupLast kvs₂ "fleet_metrics") :
    processBody (Body.value (Json.obj kvs₁)) =
      processBody (Body.value (Json.obj kvs₂)) := by
  show handleObj kvs₁ = handleObj kvs₂
  have hr : eventReason kvs₁ = eventReason kvs₂ := by
    unfold eventReason getD
    rw [h1]
  have ht : eventTimestamp kvs₁ = eventTimestamp kvs₂ := by
    unfold eventTimestamp getD
    rw [h2]
  have hv : variantSteps kvs₁ (eventReason kvs₁) =
      variantSteps kvs₂ (eventReason kvs₂) := by
    rw [hr]
    unfold variantSteps getD
    rw [h3, h4, h5]
  have hf : fleetSteps kvs₁ = fleetSteps kvs₂ := by
    unfold fleetSteps getD
    rw [h6]
  have hp : preSteps kvs₁ = preSteps kvs₂ := by
    unfold preSteps
    rw [hr, ht]
  unfold handleObj
  rw [hv, hf, hp]

/-- Witness for C10: adding an unrecognized `color` field leaves the
trace unchanged. -/
theorem unrecognized_fields_no_influence_witness :
    processBody (Body.value (Json.obj [("reason", Json.str "X")])) =
      processBody (Body.value (Json.obj
        [("reason", Json.str "X"), ("color", Json.str "blue")])) :=
  unrecognized_fields_no_influence
    [("reason", Json.str "X")]
    [("reason", Json.str "X"), ("color", Json.str "blue")]
    rfl rfl rfl rfl rfl rfl

/-- C1 counterexample: the body decodes to a JSON object, yet processing
faults internally (`prediction_info.get` on line 29 raises
`AttributeError` because `prediction_info` is the number `5`) and the
response is HTTP 400, not the claimed 200 success shape. -/
theorem success_shape_refuted :
    Json.isObj (Json.obj nonMappingInfoPayload) = true ∧
    statusOf (processBody (Body.value (Json.obj nonMappingInfoPayload))) =
      some 400 ∧
    hasErrorEntry (processBody (Body.value (Json.obj nonMappingInfoPayload))) =
      true ∧
    bodyChunks (processBody (Body.value (Json.obj nonMappingInfoPayload))) = [] :=
  ⟨rfl, rfl, rfl, rfl⟩

/-- C1 (amended): for every request body that decodes to a JSON object in
which `prediction_info` is a mapping (or absent) whenever
`reason == "PREDICTED_HIGH_FLEET_CPU_LOAD"`, and `fleet_metrics` is a
mapping whenever it is truthy, processing completes without an internal
fault and the response is exactly status 200 with the fixed success
body. -/
theorem success_shape_amended (kvs : List (String × Json))
    (hp : isStr (eventReason kvs) "PREDICTED_HIGH_FLEET_CPU_LOAD" = true →
          (getD kvs "prediction_info" (Json.obj [])).isObj = true)
    (hf : (getD kvs "fleet_metrics" (Json.obj [])).truthy = true →
          (getD kvs "fleet_metrics" (Json.obj [])).isObj = true) :
    statusOf (processBody (Body.value (Json.obj kvs))) = some 200 ∧
    bodyChunks (processBody (Body.value (Json.obj kvs))) = [successBody] ∧
    hasErrorEntry (processBody (Body.value (Json.obj kvs))) = false := by
  obtain ⟨vb, hv, hvs⟩ := variantSteps_ok kvs (eventReason kvs) hp
  obtain ⟨fb, hfb, hfs⟩ := fleetSteps_ok kvs hf
  rw [processBody_obj, handleObj_eq_success kvs vb fb hv hfb]
  rcases hvs with rfl | ⟨a, b, c, rfl⟩ | ⟨a, b, rfl⟩ <;>
    rcases hfs with rfl | ⟨x, y, z, rfl⟩ <;> exact ⟨rfl, rfl, rfl⟩

/-- Witness for C1 (amended) at a concrete node-failure payload. -/
theorem success_shape_amended_witness :
    statusOf (processBody (Body.value (Json.obj
      [("reason", Json.str "UNEXPECTED_NODE_FAILURE")]))) = some 200 ∧
    bodyChunks (processBody (Body.value (Json.obj
      [("reason", Json.str "UNEXPECTED_NODE_FAILURE")]))) = [successBody] ∧
    hasErrorEntry (processBody (Body.value (Json.obj
      [("reason", Json.str "UNEXPECTED_NODE_FAILURE")]))) = false :=
  success_shape_amended [("reason", Json.str "UNEXPECTED_NODE_FAILURE")]
    (fun h => Bool.noConfusion h) (fun h => Bool.noConfusion h)

/-- C3 counterexample: `fleet_metrics` is present in the payload and the
request succeeds, yet no fleet-metrics line is logged, because line 42
(`if fleet_metrics:`) skips the block when the dict is empty (falsy) —
refuting the claim that presence alone triggers the block. -/
theorem fleet_metrics_present_not_logged :
    hasKey emptyFleetPayload "fleet_metrics" = true ∧
    statusOf (processBody (Body.value (Json.obj emptyFleetPayload))) =
      some 200 ∧
    hasFleetEntry (processBody (Body.value (Json.obj emptyFleetPayload))) =
      false :=
  ⟨rfl, rfl, rfl⟩

/-- C3 (amended): for every decoded event whose `fleet_metrics` field is a
non-empty (truthy) mapping, and whose `reason` branch completes without a
fault (`prediction_info` is a mapping or absent when the reason is the
predicted-load string), regardless of which reason variant matched, the
fleet-metrics block is logged, its three lines carrying the sub-field
values with each independently defaulting to the `N/A` marker when
absent. -/
theorem fleet_metrics_logged (kvs f : List (String × Json))
    (hf : getD kvs "fleet_metrics" (Json.obj []) = Json.obj f)
    (hne : f.isEmpty = false)
    (hp : isStr (eventReason kvs) "PREDICTED_HIGH_FLEET_CPU_LOAD" = true →
          (getD kvs "prediction_info" (Json.obj [])).isObj = true) :
    ∃ pre post, processBody (Body.value (Json.obj kvs)) =
      pre ++ fleetBlock (getD f "active_nodes" (Json.str "N/A"))
               (getD f "avg_cpu_usage" (Json.str "N/A"))
               (getD f "total_connections" (Json.str "N/A")) ++ post := by
  obtain ⟨vb, hv, hvs⟩ := variantSteps_ok kvs (eventReason kvs) hp
  have ht : (Json.obj f).truthy = true := by
    simp [Json.truthy, hne]
  have hfb := fleetSteps_obj kvs f hf ht
  rw [processBody_obj, handleObj_eq_success kvs vb _ hv hfb]
  exact ⟨preSteps kvs ++ vb, successTail, by simp [List.append_assoc]⟩

/-- Witness for C3 (amended): the Scenario E payload logs active nodes `7`
and `N/A` for the other two fleet fields. -/
theorem fleet_metrics_logged_witness :
    ∃ pre post, processBody (Body.value (Json.obj
      [("reason", Json.str "X"),
       ("fleet_metrics", Json.obj [("active_nodes", Json.num 7)])])) =
      pre ++ fleetBlock (Json.num 7) (Json.str "N/A") (Json.str "N/A") ++ post :=
  fleet_metrics_logged
    [("reason", Json.str "X"),
     ("fleet_metrics", Json.obj [("active_nodes", Json.num 7)])]
    [("active_nodes", Json.num 7)]
    rfl rfl (fun h => Bool.noConfusion h)

/-- C6: variant exclusivity — when the decoded payload's reason is the
predicted-load string, no node-failure line is ever logged; when it is
the node-failure string, no prediction line is ever logged; and in any
single request's trace at most one variant-specific block appears. -/
theorem variant_exclusivity (body : Body) :
    (∀ kvs, decodePayload body = Except.ok kvs →
      (eventReason kvs = Json.str "PREDICTED_HIGH_FLEET_CPU_LOAD" →
        hasNodeFailureEntry (processBody body) = false) ∧
      (eventReason kvs = Json.str "UNEXPECTED_NODE_FAILURE" →
        hasPredictionEntry (processBody body) = false)) ∧
    (hasPredictionEntry (processBody body) = false ∨
     hasNodeFailureEntry (processBody body) = false) := by
  cases body with
  | invalidUtf8 =>
    exact ⟨fun kvs h => Except.noConfusion h, Or.inl rfl⟩
  | invalidJson s =>
    exact ⟨fun kvs h => Except.noConfusion h, Or.inl rfl⟩
  | value j =>
    cases j with
    | null => exact ⟨fun kvs h => Except.noConfusion h, Or.inl rfl⟩
    | bool b => exact ⟨fun kvs h => Except.noConfusion h, Or.inl rfl⟩
    | num q => exact ⟨fun kvs h => Except.noConfusion h, Or.inl rfl⟩
    | str s => exact ⟨fun kvs h => Except.noConfusion h, Or.inl rfl⟩
    | arr es => exact ⟨fun kvs h => Except.noConfusion h, Or.inl rfl⟩
    | obj kvs0 =>
      constructor
      · intro kvs h
        have hk : kvs = kvs0 := by
          have := h
          simp only [decodePayload] at this
          exact (Except.ok.injEq _ _).mp this.symm
        subst hk
        constructor
        · intro hr
          have h1 : isStr (eventReason kvs) "PREDICTED_HIGH_FLEET_CPU_LOAD" = true := by
            rw [hr]; rfl
          cases hg : getD kvs "prediction_info" (Json.obj []) with
          | obj p =>
            have hv := variantSteps_pred_obj kvs (eventReason kvs) p h1 hg
            rcases fleetSteps_spec kvs with hfb | ⟨x, y, z, hfb⟩ | hfb
            · rw [processBody_obj, handleObj_eq_success kvs _ _ hv hfb]; rfl
            · rw [processBody_obj, handleObj_eq_success kvs _ _ hv hfb]; rfl
            · rw [processBody_obj, handleObj_eq_fleet_fault kvs _ _ hv hfb]; rfl
          | null =>
            rw [processBody_obj, handleObj_eq_variant_fault kvs _
              (variantSteps_pred_fault kvs _ h1 (by rw [hg]; rfl))]
            rfl
          | bool b =>
            rw [processBody_obj, handleObj_eq_variant_fault kvs _
              (variantSteps_pred_fault kvs _ h1 (by rw [hg]; rfl))]
            rfl
          | num q =>
            rw [processBody_obj, handleObj_eq_variant_fault kvs _
              (variantSteps_pred_fault kvs _ h1 (by rw [hg]; rfl))]
            rfl
          | str s =>
            rw [processBody_obj, handleObj_eq_variant_fault kvs _
              (variantSteps_pred_fault kvs _ h1 (by rw [hg]; rfl))]
            rfl
          | arr es =>
            rw [processBody_obj, handleObj_eq_variant_fault kvs _
              (variantSteps_pred_fault kvs _ h1 (by rw [hg]; rfl))]
            rfl
        · intro hr
          have h1 : isStr (eventReason kvs) "PREDICTED_HIGH_FLEET_CPU_LOAD" = false := by
            rw [hr]; rfl
          have h2 : isStr (eventReason kvs) "UNEXPECTED_NODE_FAILURE" = true := by
            rw [hr]; rfl
          have hv := variantSteps_node kvs (eventReason kvs) h1 h2
          rcases fleetSteps_spec kvs with hfb | ⟨x, y, z, hfb⟩ | hfb
          · rw [processBody_obj, handleObj_eq_success kvs _ _ hv hfb]; rfl
          · rw [processBody_obj, handleObj_eq_success kvs _ _ hv hfb]; rfl
          · rw [processBody_obj, handleObj_eq_fleet_fault kvs _ _ hv hfb]; rfl
      · rcases handleObj_shapes kvs0 with ⟨vb, fb, he, hvs, hfs⟩ | he | ⟨vb, he, hvs⟩
        · rw [processBody_obj, he]
          rcases hvs with rfl | ⟨a, b, c, rfl⟩ | ⟨a, b, rfl⟩ <;>
            rcases hfs with rfl | ⟨x, y, z, rfl⟩
          · exact Or.inl rfl
          · exact Or.inl rfl
          · exact Or.inr rfl
          · exact Or.inr rfl
          · exact Or.inl rfl
          · exact Or.inl rfl
        · rw [processBody_obj, he]
          exact Or.inr rfl
        · rw [processBody_obj, he]
          rcases hvs with rfl | ⟨a, b, c, rfl⟩ | ⟨a, b, rfl⟩
          · exact Or.inl rfl
          · exact Or.inr rfl
          · exact Or.inl rfl

/-- Witness for C6 at a concrete predicted-load payload: no node-failure
line is logged, and at most one variant block appears. -/
theorem variant_exclusivity_witness :
    hasNodeFailureEntry (processBody (Body.value (Json.obj
      [("reason", Json.str "PREDICTED_HIGH_FLEET_CPU_LOAD")]))) = false ∧
    (hasPredictionEntry (processBody (Body.value (Json.obj
      [("reason", Json.str "PREDICTED_HIGH_FLEET_CPU_LOAD")]))) = false ∨
     hasNodeFailureEntry (processBody (Body.value (Json.obj
      [("reason", Json.str "PREDICTED_HIGH_FLEET_CPU_LOAD")]))) = false) :=
  ⟨((variant_exclusivity (Body.value (Json.obj
      [("reason", Json.str "PREDICTED_HIGH_FLEET_CPU_LOAD")]))).1
      [("reason", Json.str "PREDICTED_HIGH_FLEET_CPU_LOAD")] rfl).1 rfl,
   (variant_exclusivity (Body.value (Json.obj
      [("reason", Json.str "PREDICTED_HIGH_FLEET_CPU_LOAD")]))).2⟩

/-- C7: the audit trace of every successfully processed request (one that
reaches the 200 response) is exactly the banner/reason/timestamp prefix,
then the variant-specific block (if any), then the fleet-metrics block
(if any), then the success marker followed by the delay and the response
steps — so the variant block always precedes the fleet-metrics block. -/
theorem trace_order (kvs : List (String × Json))
    (h : statusOf (processBody (Body.value (Json.obj kvs))) = some 200) :
    ∃ vb fb, processBody (Body.value (Json.obj kvs)) =
        preSteps kvs ++ vb ++ fb ++ successTail ∧
      (vb = [] ∨ (∃ a b c, vb = mlBlock a b c) ∨ (∃ a b, vb = nodeBlock a b)) ∧
      (fb = [] ∨ ∃ a b c, fb = fleetBlock a b c) := by
  rcases handleObj_shapes kvs with ⟨vb, fb, he, hvs, hfs⟩ | he | ⟨vb, he, hvs⟩
  · exact ⟨vb, fb, by rw [processBody_obj, he], hvs, hfs⟩
  · rw [processBody_obj, he] at h
    simp [preSteps, errorTail] at h
  · rw [processBody_obj, he] at h
    rcases hvs with rfl | ⟨a, b, c, rfl⟩ | ⟨a, b, rfl⟩ <;>
      simp [preSteps, mlBlock, nodeBlock, errorTail] at h

/-- Witness for C7 at the concrete empty-object payload (an unclassified
event with no variant and no fleet block). -/
theorem trace_order_witness :
    ∃ vb fb, processBody (Body.value (Json.obj [])) =
        preSteps [] ++ vb ++ fb ++ successTail ∧
      (vb = [] ∨ (∃ a b c, vb = mlBlock a b c) ∨ (∃ a b, vb = nodeBlock a b)) ∧
      (fb = [] ∨ ∃ a b c, fb = fleetBlock a b c) :=
  trace_order [] rfl

/-- C8: the one-second delay happens on every request that reaches the 200
response, whatever the reason variant: the trace is a print-only prefix,
then `sleep 1`, then the response-sending steps — so the delay follows
classification and logging and precedes the response.  On the 400 path no
sleep occurs. -/
theorem provisioning_delay (body : Body) :
    (statusOf (processBody body) = some 200 →
      ∃ pre, processBody body = pre ++ Eff.sleep 1 :: respSteps ∧
        pre.all isPrint = true) ∧
    (statusOf (processBody body) = some 400 →
      hasSleep (processBody body) = false) := by
  cases body with
  | invalidUtf8 => exact ⟨fun h => by simp [errorTail] at h, fun _ => rfl⟩
  | invalidJson s => exact ⟨fun h => by simp [errorTail] at h, fun _ => rfl⟩
  | value j =>
    cases j with
    | null => exact ⟨fun h => by simp [errorTail] at h, fun _ => rfl⟩
    | bool b => exact ⟨fun h => by simp [errorTail] at h, fun _ => rfl⟩
    | num q => exact ⟨fun h => by simp [errorTail] at h, fun _ => rfl⟩
    | str s => exact ⟨fun h => by simp [errorTail] at h, fun _ => rfl⟩
    | arr es => exact ⟨fun h => by simp [errorTail] at h, fun _ => rfl⟩
    | obj kvs =>
      rcases handleObj_shapes kvs with ⟨vb, fb, he, hvs, hfs⟩ | he | ⟨vb, he, hvs⟩
      · rw [processBody_obj, he]
        constructor
        · intro _
          rcases hvs with rfl | ⟨a, b, c, rfl⟩ | ⟨a, b, rfl⟩ <;>
            rcases hfs with rfl | ⟨x, y, z, rfl⟩
          · exact ⟨preSteps kvs ++ [Eff.print LogEntry.successLine], rfl, rfl⟩
          · exact ⟨preSteps kvs ++ fleetBlock x y z ++
              [Eff.print LogEntry.successLine], rfl, rfl⟩
          · exact ⟨preSteps kvs ++ mlBlock a b c ++
              [Eff.print LogEntry.successLine], rfl, rfl⟩
          · exact ⟨preSteps kvs ++ mlBlock a b c ++ fleetBlock x y z ++
              [Eff.print LogEntry.successLine], rfl, rfl⟩
          · exact ⟨preSteps kvs ++ nodeBlock a b ++
              [Eff.print LogEntry.successLine], rfl, rfl⟩
          · exact ⟨preSteps kvs ++ nodeBlock a b ++ fleetBlock x y z ++
              [Eff.print LogEntry.successLine], rfl, rfl⟩
        · intro h400
          rcases hvs with rfl | ⟨a, b, c, rfl⟩ | ⟨a, b, rfl⟩ <;>
            rcases hfs with rfl | ⟨x, y, z, rfl⟩ <;>
            simp [preSteps, mlBlock, nodeBlock, fleetBlock, successTail] at h400
      · rw [processBody_obj, he]
        constructor
        · intro h200
          simp [preSteps, errorTail] at h200
        · intro _
          rfl
      · rw [processBody_obj, he]
        constructor
        · intro h200
          rcases hvs with rfl | ⟨a, b, c, rfl⟩ | ⟨a, b, rfl⟩ <;>
            simp [preSteps, mlBlock, nodeBlock, errorTail] at h200
        · intro _
          rcases hvs with rfl | ⟨a, b, c, rfl⟩ | ⟨a, b, rfl⟩ <;> rfl

/-- Witness for C8 at the concrete empty-object payload: the delay is
present on the success path. -/
theorem provisioning_delay_witness :
    ∃ pre, processBody (Body.value (Json.obj [])) =
        pre ++ Eff.sleep 1 :: respSteps ∧
      pre.all isPrint = true :=
  (provisioning_delay (Body.value (Json.obj []))).1 rfl

/-- C9: for every decoded event whose reason is the predicted-load string
and whose `prediction_info` is a mapping, the ML block is logged with the
three sub-fields read by `.get`, each defaulting to `N/A` when absent
(lines 28-31). -/
theorem prediction_fields_logged (kvs p : List (String × Json))
    (hr : eventReason kvs = Json.str "PREDICTED_HIGH_FLEET_CPU_LOAD")
    (hp : getD kvs "prediction_info" (Json.obj []) = Json.obj p) :
    ∃ post, processBody (Body.value (Json.obj kvs)) =
      preSteps kvs ++
      mlBlock (getD p "predicted_cpu_usage" (Json.str "N/A"))
              (getD p "prediction_horizon_minutes" (Json.str "N/A"))
              (getD p "confidence" (Json.str "N/A")) ++ post := by
  have h1 : isStr (eventReason kvs) "PREDICTED_HIGH_FLEET_CPU_LOAD" = true := by
    rw [hr]; rfl
  have hv := variantSteps_pred_obj kvs (eventReason kvs) p h1 hp
  rcases fleetSteps_spec kvs with hf | ⟨a, b, c, hf⟩ | hf
  · exact ⟨successTail,
      by rw [processBody_obj, handleObj_eq_success kvs _ _ hv hf]; simp⟩
  · exact ⟨fleetBlock a b c ++ successTail,
      by rw [processBody_obj, handleObj_eq_success kvs _ _ hv hf]; simp⟩
  · exact ⟨[Eff.print LogEntry.fleetHeader] ++ errorTail,
      by rw [processBody_obj, handleObj_eq_fleet_fault kvs _ _ hv hf]; simp⟩

/-- Witness for C9 at the Scenario B payload: predicted CPU `92.5`,
horizon `N/A`, confidence `0.87`. -/
theorem prediction_fields_logged_witness :
    ∃ post, processBody (Body.value (Json.obj scenarioBPayload)) =
      preSteps scenarioBPayload ++
      mlBlock (Json.num 92.5) (Json.str "N/A") (Json.num 0.87) ++ post :=
  prediction_fields_logged scenarioBPayload scenarioBInfo rfl rfl

end Webhook
